import Mathlib

/-!
# Verification of the C2Fuzz auxiliary tooling scripts

Shallow embedding of the Python helper scripts of the C2Fuzz repository
(seed filters, sweep drivers, compile client) together with proofs about
their behaviour.  Pure computations are translated into Lean functions;
subprocess and filesystem effects are made explicit parameters (the
observed outcome of each external call), and Python exceptions become an
explicit error type threaded through `Except`.
-/

namespace C2Fuzz

/-- The Python exception kinds raised by the scripts under study. -/
inductive PyExc where
  | systemExit (msg : String)
  | fileNotFound (msg : String)
  | runtimeError (msg : String)
  | valueError (msg : String)
deriving DecidableEq, Repr

/-- `true` iff the computation raised `SystemExit`. -/
def raisesSystemExit {α : Type} : Except PyExc α → Bool
  | .error (.systemExit _) => true
  | _ => false

/-- `true` iff the computation finished without raising. -/
def exceptOk {α : Type} : Except PyExc α → Bool
  | .ok _ => true
  | .error _ => false

/-- Python's `needle in hay` substring test. -/
def strContains (hay needle : String) : Bool :=
  decide (needle.data <:+: hay.data)

namespace FilterC2
/-! ## scripts/filter_c2_optimized_seeds.py -/

/-- `OPT_MARKER = "OPTS_START"` (line 34). -/
def OPT_MARKER : String := "OPTS_START"

/-- Observed outcome of one `subprocess.run(cmd, capture_output=True, text=True,
timeout=...)` call: either the process completed within the timeout (with a
return code and captured text streams) or `subprocess.TimeoutExpired` was
raised, whose `stdout`/`stderr` attributes may be `None`.  Byte payloads are
modelled as already decoded strings, matching `_to_text`'s decoding. -/
inductive CmdOutcome where
  | completed (returncode : Int) (stdout stderr : String)
  | timeoutExpired (stdout stderr : Option String)
deriving DecidableEq, Repr

/-- `_to_text` (lines 180-188): `None` becomes `""`, text is returned as is. -/
def to_text : Option String → String
  | none => ""
  | some s => s

/-- The source's `run_cmd` (lines 172-177; renamed, the original name is a
Lean keyword): on completion return `(returncode, stdout, stderr, False)`; on
`TimeoutExpired` return `(None, _to_text(exc.stdout), _to_text(exc.stderr),
True)`. -/
def runCmd : CmdOutcome → Option Int × String × String × Bool
  | .completed rc out err => (some rc, out, err, false)
  | .timeoutExpired out err => (none, to_text out, to_text err, true)

/-- The record produced per seed (dataclass `SeedResult`, lines 37-45). -/
structure SeedResult where
  path : String
  compiled : Bool
  ran : Bool
  has_opts : Bool
  exit_code : Option Int
  timed_out : Bool
  message : String := ""
deriving DecidableEq, Repr

/-- Python `a or b` on strings: `b` when `a` is empty (falsy). -/
def pyOrStr (a b : String) : String := if a = "" then b else a

/-- Python truthiness test `rret and rret != 0` for `rret : Optional[int]`. -/
def retNonzero : Option Int → Bool
  | none => false
  | some n => n != 0

/-- The external behaviour a single seed exhibits: the outcome of its `javac`
compilation and of its `java` execution. -/
structure SeedExec where
  seed : String
  compileOutcome : CmdOutcome
  runOutcome : CmdOutcome
deriving DecidableEq, Repr

/-- `process_seed` (lines 191-241): compile the seed; a compile timeout or a
nonzero compile status short-circuits; otherwise run it and test the combined
output `rstdout + "\n" + rstderr` for `OPT_MARKER`. -/
def process_seed (verbose : Bool) (e : SeedExec) : SeedResult :=
  let c := runCmd e.compileOutcome
  let cret := c.1
  let cstdout := c.2.1
  let cstderr := c.2.2.1
  let ctimeout := c.2.2.2
  if ctimeout then
    ⟨e.seed, false, false, false, none, true, "compile timed out"⟩
  else if cret ≠ some 0 then
    ⟨e.seed, false, false, false, cret, false, (pyOrStr cstderr cstdout).trim⟩
  else
    let r := runCmd e.runOutcome
    let rret := r.1
    let rstdout := r.2.1
    let rstderr := r.2.2.1
    let rtimeout := r.2.2.2
    let combined := rstdout ++ "\n" ++ rstderr
    let has_opts := strContains combined OPT_MARKER
    let msg :=
      if verbose || retNonzero rret || rtimeout then (combined.trim.take 2000)
      else ""
    ⟨e.seed, true, !rtimeout, has_opts, rret, rtimeout, msg⟩

/-- `with_opts = [r for r in results if r.has_opts]` (line 311); these are the
seeds reported under "Seeds with TraceC2Optimizations output". -/
def withOpts (results : List SeedResult) : List SeedResult :=
  results.filter (fun r => r.has_opts)

/-- The seed names written to the `--output` file: `record_result`
(lines 271-276) writes `res.path.name` exactly when `res.has_opts`. -/
def writtenNames (results : List SeedResult) : List String :=
  (results.filter (fun r => r.has_opts)).map (fun r => r.path)

end FilterC2

namespace Sweep
/-! ## scripts/run_config_sweep.py and scripts/run_config_sweep_docker.py -/

/-- `GRACEFUL_SHUTDOWN_SECONDS = 30` (run_config_sweep.py line 30). -/
def GRACEFUL_SHUTDOWN_SECONDS : ℚ := 30

/-- Events observed on the child process during `launch_fuzzer`:
`proc.wait(timeout)` returning or raising `TimeoutExpired`, `SIGINT` being
sent, `proc.kill()`, and an untimed `proc.wait()`. -/
inductive Ev where
  | waitReturned (timeout : ℚ)
  | waitExpired (timeout : ℚ)
  | sigint
  | kill
  | waitPlain
deriving DecidableEq, Repr

/-- Outcome of the initial `proc.wait(timeout=duration_seconds)`: the process
exited in time, the wait raised `TimeoutExpired`, or the operator raised
`KeyboardInterrupt`. -/
inductive FirstWait where
  | exited
  | expired
  | kbInterrupt
deriving DecidableEq, Repr

/-- Behaviour of one fuzzer child process as `launch_fuzzer` observes it:
how the first wait ends, whether after a SIGINT the process exits within the
grace period, and the final `proc.returncode`. -/
structure ProcRun where
  firstWait : FirstWait
  exitsInGrace : Bool
  returncode : Option Int
deriving DecidableEq, Repr

/-- Python's `proc.returncode or 0`. -/
def pyOrZero : Option Int → Int
  | none => 0
  | some n => n

/-- `launch_fuzzer` (run_config_sweep.py lines 71-99), returning the triple
`(returncode or 0, timed_out, elapsed)` with `elapsed` replaced by the trace
of process-control events; the `KeyboardInterrupt` path re-raises, modelled
as `Except.error` carrying its trace. -/
def launch_fuzzer (duration : ℚ) (p : ProcRun) :
    Except (List Ev) (Int × Bool × List Ev) :=
  match p.firstWait with
  | .exited => .ok (pyOrZero p.returncode, false, [.waitReturned duration])
  | .expired =>
      if p.exitsInGrace then
        .ok (pyOrZero p.returncode, true,
          [.waitExpired duration, .sigint, .waitReturned GRACEFUL_SHUTDOWN_SECONDS])
      else
        .ok (pyOrZero p.returncode, true,
          [.waitExpired duration, .sigint, .waitExpired GRACEFUL_SHUTDOWN_SECONDS,
            .kill, .waitPlain])
  | .kbInterrupt => .error [.sigint, .waitPlain]

/-- The event trace of a `launch_fuzzer` call, whether it returned or
re-raised `KeyboardInterrupt`. -/
def traceOf : Except (List Ev) (Int × Bool × List Ev) → List Ev
  | .error t => t
  | .ok (_, _, t) => t

/-- One entry of the sessions root as `list_session_dirs` sees it. -/
structure DirEntry where
  name : String
  isDir : Bool
deriving DecidableEq, Repr

/-- `list_session_dirs` (lines 61-68): the empty set when the root does not
exist, else the direct entries that are directories whose name starts with
`"session_"` (returned by name). -/
def list_session_dirs (baseExists : Bool) (entries : List DirEntry) : List String :=
  if baseExists then
    (entries.filter (fun e => e.isDir && e.name.startsWith "session_")).map
      (fun e => e.name)
  else []

/-- The characters after the first `'_'`, `none` when there is none;
this is Python's `name.split("_", 1)[1]` together with its guard. -/
def afterFirstUnderscore : List Char → Option (List Char)
  | [] => none
  | c :: cs => if c = '_' then some cs else afterFirstUnderscore cs

/-- `derive_timestamp` (lines 102-106): raise `ValueError` when the session
directory name contains no underscore, else return the part of the name after
the first underscore. -/
def derive_timestamp (name : String) : Except PyExc String :=
  match afterFirstUnderscore name.data with
  | none => .error (.valueError ("Unexpected session directory name: " ++ name))
  | some rest => .ok (String.mk rest)

/-- `ensure_output_root` (lines 109-115).  The booleans are the filesystem
facts `path.exists()` and `any(path.iterdir())`; the result records the
returned path and whether `mkdir(parents=True)` was called. -/
def ensure_output_root (path : String) (pathExists hasEntries : Bool) :
    Except PyExc (String × Bool) :=
  if pathExists then
    if hasEntries then
      .error (.runtimeError
        ("Output directory " ++ path ++ " already exists and is not empty."))
    else .ok (path, false)
  else .ok (path, true)

/-- The input checks of `main` in run_config_sweep.py, in program order: the
seeds-directory check and jar check (lines 250-253) raise `SystemExit`, then
`parse_scoring_modes` (line 255) checks `scoring_file.is_file()` (lines 38-39)
and raises `FileNotFoundError`.  Each boolean is the corresponding
filesystem fact. -/
def check_inputs (seedsPath jarPath scoringPath : String)
    (skipSeedCheck seedsIsDir jarIsFile scoringIsFile : Bool) :
    Except PyExc Unit :=
  if !skipSeedCheck && !seedsIsDir then
    .error (.systemExit ("Seeds directory not found: " ++ seedsPath))
  else if !jarIsFile then
    .error (.systemExit ("Jar not found: " ++ jarPath))
  else if !scoringIsFile then
    .error (.fileNotFound ("Scoring mode source not found: " ++ scoringPath))
  else .ok ()

/-- The per-run archival step of run_config_sweep.py `main` (lines 347-368):
`derive_timestamp` is applied to the new session directory's name and then
`dest_dir = session_dir` — the session is deliberately kept in place (comment
at lines 349-350), so no move happens; the boolean records whether a
directory move was performed. -/
def archive_session (sessionName : String) : Except PyExc (String × Bool) :=
  match derive_timestamp sessionName with
  | .error e => .error e
  | .ok _ts => .ok (sessionName, false)

/-- The per-run archival step of run_config_sweep_docker.py `main`
(lines 454-460): compute `dest_dir = output_root / (session_ts ++ "__" ++
label)`, raise `RuntimeError` when it already exists, else
`shutil.move(session_dir, dest_dir)`; the boolean records that a directory
move was performed. -/
def archive_session_docker (outputRoot label sessionName : String)
    (destExists : Bool) : Except PyExc (String × Bool) :=
  match derive_timestamp sessionName with
  | .error e => .error e
  | .ok ts =>
      let dest := outputRoot ++ "/" ++ ts ++ "__" ++ label
      if destExists then
        .error (.runtimeError ("Destination already exists: " ++ dest))
      else .ok (dest, true)

end Sweep

namespace FilterC2
/-! ### `collect_seeds` of scripts/filter_c2_optimized_seeds.py -/

/-- `collect_seeds` (lines 244-247): raise `SystemExit` when the seed
directory is missing, else return the sorted `*.java` entries.  `isDir` is the
filesystem fact `seed_dir.is_dir()` and `entries` the directory's entry
names. -/
def collect_seeds (seedDir : String) (isDir : Bool) (entries : List String) :
    Except PyExc (List String) :=
  if !isDir then .error (.systemExit ("Seed directory not found: " ++ seedDir))
  else .ok ((entries.filter (fun n => n.endsWith ".java")).mergeSort (· ≤ ·))

end FilterC2

namespace FilterRuntime
/-! ## scripts/filter_runtime_compiler_seeds.py -/

/-- Python `str.splitlines()` restricted to `'\n'` separators: split on
newlines, without a trailing empty line for a trailing newline. -/
def splitlines (s : String) : List String :=
  if s = "" then []
  else if s.endsWith "\n" then (s.splitOn "\n").dropLast
  else s.splitOn "\n"

/-- The text `strip_package` writes back: every line whose stripped form
starts with `"package "` removed, the rest rejoined with newlines plus a
final newline (lines 99-105). -/
def strippedText (content : String) : String :=
  String.intercalate "\n"
    ((splitlines content).filter (fun l => !(l.trim.startsWith "package "))) ++ "\n"

/-- `strip_package` (lines 94-107) acting on the file's content.  `readOk` and
`writeOk` are whether `read_text` and `write_text` succeed; the result is the
file's content after the call (wrapped in `Except` to make "raises" an
expressible outcome): a failed read returns early leaving the file unchanged,
a failed write is suppressed by `pass`. -/
def strip_package (content : String) (readOk writeOk : Bool) :
    Except PyExc String :=
  if !readOk then .ok content
  else if writeOk then .ok (strippedText content) else .ok content

/-- One source file as the main loop (lines 130-155) observes it: its
basename, whether `shutil.copy2` into the temp dir succeeds, and whether the
(stripped) copy compiles — via the server or the fallback javac. -/
structure Src where
  name : String
  copyOk : Bool
  compiles : Bool
deriving DecidableEq, Repr

/-- State of the main loop: `seen_names`, the `kept`/`total` counters, and
the sources copied into the output directory, in order. -/
structure LoopState where
  seen : List String
  kept : Nat
  total : Nat
  outputs : List Src
deriving DecidableEq, Repr

/-- The loop state before the first iteration. -/
def initState : LoopState := ⟨[], 0, 0, []⟩

/-- One iteration of the main loop (lines 130-155): count the source;
`continue` when the copy into the temp directory fails, when compilation
fails, or when the basename was already seen; otherwise record the name and
copy the source to the output directory. -/
def processOne (st : LoopState) (s : Src) : LoopState :=
  let st := { st with total := st.total + 1 }
  if !s.copyOk then st
  else if !s.compiles then st
  else if st.seen.contains s.name then st
  else { st with
          seen := s.name :: st.seen
          outputs := st.outputs ++ [s]
          kept := st.kept + 1 }

/-- The whole main loop over the sorted source list. -/
def processSources (st : LoopState) : List Src → LoopState
  | [] => st
  | s :: rest => processSources (processOne st s) rest

/-- A source the loop would copy, were its basename fresh: the temp copy
succeeded and the stripped copy compiled. -/
def eligible (s : Src) : Bool := s.copyOk && s.compiles

/-- Keep, from a list of sources, the first one bearing each basename not
already in `seen` (specification-level description of the loop's
deduplication). -/
def dedupByName (seen : List String) : List Src → List Src
  | [] => []
  | s :: rest =>
      if seen.contains s.name then dedupByName seen rest
      else s :: dedupByName (s.name :: seen) rest

end FilterRuntime

namespace CompileClient
/-! ## javac_server/examples/compile_client.py -/

/-- JSON values appearing in the compile request payload. -/
inductive JVal where
  | str (s : String)
  | arr (xs : List String)
deriving DecidableEq, Repr

/-- `build_payload` (lines 54-69).  `resolvedSource` is the resolved source
path, `srcExists`/`srcIsFile` the filesystem facts about it, `classOutput`
the resolved `--class-output` argument (`none` when not supplied) and
`options` the accumulated `--option` flags (empty when none supplied).  The
payload is the ordered list of JSON keys and values. -/
def build_payload (resolvedSource : String) (srcExists srcIsFile : Bool)
    (classOutput : Option String) (options : List String) :
    Except PyExc (List (String × JVal)) :=
  if !srcExists then
    .error (.systemExit ("Source file not found: " ++ resolvedSource))
  else if !srcIsFile then
    .error (.systemExit ("Source path is not a file: " ++ resolvedSource))
  else
    .ok ([("sourcePath", JVal.str resolvedSource)]
      ++ (match classOutput with
          | some c => [("classOutput", JVal.str c)]
          | none => [])
      ++ (if options.isEmpty then [] else [("options", JVal.arr options)]))

/-- Outcome of `urllib.request.urlopen` on the compile request: a response,
an `HTTPError` (carrying the HTTP status code and body), or a `URLError`. -/
inductive ServerResp where
  | response (status : Nat) (body : String)
  | httpError (code : Nat) (body : String)
  | urlError (reason : String)
deriving DecidableEq, Repr

/-- `send_request` (lines 72-89): return `(status, body)` for a response or
an `HTTPError`; raise `SystemExit` on `URLError`. -/
def send_request (resp : ServerResp) : Except PyExc (Nat × String) :=
  match resp with
  | .response s b => .ok (s, b)
  | .httpError c b => .ok (c, b)
  | .urlError r => .error (.systemExit ("Failed to reach server: " ++ r))

/-- `main` (lines 92-109), up to its exit code: build the payload, send it,
and return 1 when the HTTP status is at least 400, else 0. -/
def client_main (resolvedSource : String) (srcExists srcIsFile : Bool)
    (classOutput : Option String) (options : List String)
    (resp : ServerResp) : Except PyExc Int :=
  match build_payload resolvedSource srcExists srcIsFile classOutput options with
  | .error e => .error e
  | .ok _payload =>
      match send_request resp with
      | .error e => .error e
      | .ok (status, _body) => .ok (if 400 ≤ status then 1 else 0)

end CompileClient

/-! ## Helper lemmas -/

theorem afterFirstUnderscore_some_iff (l post : List Char) :
    Sweep.afterFirstUnderscore l = some post ↔
      ∃ pre, l = pre ++ '_' :: post ∧ '_' ∉ pre := by
  induction l generalizing post with
  | nil =>
      simp only [Sweep.afterFirstUnderscore]
      constructor
      · intro h; cases h
      · rintro ⟨pre, hpre, -⟩; cases pre <;> simp at hpre
  | cons c cs ih =>
      by_cases hc : c = '_'
      · subst hc
        simp only [Sweep.afterFirstUnderscore, if_pos rfl]
        constructor
        · rintro h
          injection h with h
          exact ⟨[], by simp [h], by simp⟩
        · rintro ⟨pre, hpre, hmem⟩
          cases pre with
          | nil => simp at hpre; simp [hpre]
          | cons d ds =>
              simp only [List.cons_append, List.cons.injEq] at hpre
              exact absurd (hpre.1 ▸ List.mem_cons_self d ds) hmem
      · simp only [Sweep.afterFirstUnderscore, if_neg hc]
        rw [ih]
        constructor
        · rintro ⟨pre, hpre, hmem⟩
          refine ⟨c :: pre, by simp [hpre], ?_⟩
          simp only [List.mem_cons, not_or]
          exact ⟨Ne.symm hc, hmem⟩
        · rintro ⟨pre, hpre, hmem⟩
          cases pre with
          | nil => simp at hpre; exact absurd hpre.1 hc
          | cons d ds =>
              simp only [List.cons_append, List.cons.injEq] at hpre
              simp only [List.mem_cons, not_or] at hmem
              exact ⟨ds, hpre.2, hmem.2⟩

theorem afterFirstUnderscore_none_iff (l : List Char) :
    Sweep.afterFirstUnderscore l = none ↔ '_' ∉ l := by
  induction l with
  | nil => simp [Sweep.afterFirstUnderscore]
  | cons c cs ih =>
      by_cases hc : c = '_'
      · subst hc; simp [Sweep.afterFirstUnderscore]
      · simp [Sweep.afterFirstUnderscore, hc, ih, Ne.symm hc]

theorem dedupByName_nodup (l : List FilterRuntime.Src) (seen : List String) :
    ((FilterRuntime.dedupByName seen l).map FilterRuntime.Src.name).Nodup ∧
      ∀ s ∈ FilterRuntime.dedupByName seen l, s.name ∉ seen := by
  induction l generalizing seen with
  | nil => simp [FilterRuntime.dedupByName]
  | cons s rest ih =>
      by_cases hs : s.name ∈ seen
      · simpa [FilterRuntime.dedupByName, hs] using ih seen
      · have hseen : s.name ∉ seen := hs
        obtain ⟨ihn, ihm⟩ := ih (s.name :: seen)
        have hd : FilterRuntime.dedupByName seen (s :: rest) =
            s :: FilterRuntime.dedupByName (s.name :: seen) rest := by
          simp [FilterRuntime.dedupByName, hs]
        rw [hd]
        refine ⟨?_, ?_⟩
        · simp only [List.map_cons, List.nodup_cons]
          refine ⟨?_, ihn⟩
          intro hmem
          obtain ⟨t, ht, hname⟩ := List.mem_map.mp hmem
          exact (ihm t ht) (hname ▸ List.mem_cons_self _ _)
        · intro t ht
          rcases List.mem_cons.mp ht with rfl | ht
          · exact hseen
          · exact fun hmem => (ihm t ht) (List.mem_cons_of_mem _ hmem)

theorem processSources_outputs (srcs : List FilterRuntime.Src)
    (st : FilterRuntime.LoopState) :
    (FilterRuntime.processSources st srcs).outputs =
      st.outputs ++
        FilterRuntime.dedupByName st.seen (srcs.filter FilterRuntime.eligible) := by
  induction srcs generalizing st with
  | nil => simp [FilterRuntime.processSources, FilterRuntime.dedupByName]
  | cons s rest ih =>
      simp only [FilterRuntime.processSources]
      by_cases hcopy : s.copyOk
      · by_cases hcomp : s.compiles
        · have helig : FilterRuntime.eligible s = true := by
            simp [FilterRuntime.eligible, hcopy, hcomp]
          by_cases hseen : s.name ∈ st.seen
          · rw [ih]
            simp [FilterRuntime.processOne, hcopy, hcomp, hseen,
              FilterRuntime.dedupByName, helig, List.filter_cons]
          · rw [ih]
            simp [FilterRuntime.processOne, hcopy, hcomp, hseen,
              FilterRuntime.dedupByName, helig, List.filter_cons]
        · have helig : FilterRuntime.eligible s = false := by
            simp [FilterRuntime.eligible, hcomp]
          rw [ih]
          simp [FilterRuntime.processOne, hcopy, hcomp, helig, List.filter_cons]
      · have helig : FilterRuntime.eligible s = false := by
          simp [FilterRuntime.eligible, hcopy]
        rw [ih]
        simp [FilterRuntime.processOne, hcopy, helig, List.filter_cons]

/-! ## Claim theorems -/

/-- C1, counterexample: the claim reads "kept iff `OPTS_START` occurs in the
concatenation of stdout and stderr", but the code tests `rstdout + "\n" +
rstderr`.  A seed whose run prints `"OPTS_ST"` on stdout and `"ART"` on
stderr has the marker in the plain concatenation yet is discarded: it is
neither reported among the seeds with TraceC2Optimizations output nor
written to the output file. -/
theorem C1_counterexample :
    strContains ("OPTS_ST" ++ "ART") FilterC2.OPT_MARKER = true ∧
    (FilterC2.process_seed false
      ⟨"Seed.java", FilterC2.CmdOutcome.completed 0 "" "",
        FilterC2.CmdOutcome.completed 0 "OPTS_ST" "ART"⟩).compiled = true ∧
    (FilterC2.process_seed false
      ⟨"Seed.java", FilterC2.CmdOutcome.completed 0 "" "",
        FilterC2.CmdOutcome.completed 0 "OPTS_ST" "ART"⟩).has_opts = false ∧
    FilterC2.withOpts [FilterC2.process_seed false
      ⟨"Seed.java", FilterC2.CmdOutcome.completed 0 "" "",
        FilterC2.CmdOutcome.completed 0 "OPTS_ST" "ART"⟩] = [] ∧
    FilterC2.writtenNames [FilterC2.process_seed false
      ⟨"Seed.java", FilterC2.CmdOutcome.completed 0 "" "",
        FilterC2.CmdOutcome.completed 0 "OPTS_ST" "ART"⟩] = [] := by
  decide

/-- C1, amended: for every seed whose compilation succeeds, `has_opts` — and
with it membership in the reported list and in the written output file — holds
iff `OPTS_START` occurs in `stdout ++ "\n" ++ stderr` of the seed's java
execution (so the marker must lie wholly within one stream). -/
theorem C1_kept_iff_marker (verbose : Bool) (seed cout cerr : String)
    (ro : FilterC2.CmdOutcome) (results : List FilterC2.SeedResult) :
    (FilterC2.process_seed verbose
        ⟨seed, FilterC2.CmdOutcome.completed 0 cout cerr, ro⟩).has_opts =
      strContains ((FilterC2.runCmd ro).2.1 ++ "\n" ++ (FilterC2.runCmd ro).2.2.1)
        FilterC2.OPT_MARKER ∧
    (∀ r, r ∈ FilterC2.withOpts results ↔ r ∈ results ∧ r.has_opts = true) ∧
    FilterC2.writtenNames results =
      (FilterC2.withOpts results).map FilterC2.SeedResult.path := by
  refine ⟨rfl, ?_, rfl⟩
  intro r
  simp [FilterC2.withOpts, List.mem_filter]

/-- C2: `proc.kill()` happens exactly when the first wait raised
`TimeoutExpired` (duration expired, SIGINT sent) and the grace-period wait of
`GRACEFUL_SHUTDOWN_SECONDS = 30` also raised `TimeoutExpired`; a process that
exits within the duration, or within the grace period after SIGINT, is never
force-killed, and when a kill happens it follows the SIGINT and the expired
grace wait. -/
theorem C2_kill_escalation (duration : ℚ) (p : Sweep.ProcRun) (g : Bool)
    (rc : Option Int) :
    Sweep.GRACEFUL_SHUTDOWN_SECONDS = 30 ∧
    (Sweep.Ev.kill ∈ Sweep.traceOf (Sweep.launch_fuzzer duration p) ↔
      p.firstWait = Sweep.FirstWait.expired ∧ p.exitsInGrace = false) ∧
    Sweep.traceOf (Sweep.launch_fuzzer duration
        ⟨Sweep.FirstWait.expired, false, rc⟩) =
      [Sweep.Ev.waitExpired duration, Sweep.Ev.sigint,
        Sweep.Ev.waitExpired Sweep.GRACEFUL_SHUTDOWN_SECONDS, Sweep.Ev.kill,
        Sweep.Ev.waitPlain] ∧
    Sweep.Ev.kill ∉ Sweep.traceOf (Sweep.launch_fuzzer duration
        ⟨Sweep.FirstWait.exited, g, rc⟩) ∧
    Sweep.Ev.kill ∉ Sweep.traceOf (Sweep.launch_fuzzer duration
        ⟨Sweep.FirstWait.expired, true, rc⟩) ∧
    Sweep.Ev.kill ∉ Sweep.traceOf (Sweep.launch_fuzzer duration
        ⟨Sweep.FirstWait.kbInterrupt, g, rc⟩) := by
  obtain ⟨fw, eg, rc'⟩ := p
  refine ⟨rfl, ?_, ?_, ?_, ?_, ?_⟩
  · cases fw <;> cases eg <;> simp [Sweep.launch_fuzzer, Sweep.traceOf]
  · simp [Sweep.launch_fuzzer, Sweep.traceOf]
  · simp [Sweep.launch_fuzzer, Sweep.traceOf]
  · simp [Sweep.launch_fuzzer, Sweep.traceOf]
  · simp [Sweep.launch_fuzzer, Sweep.traceOf]

/-- C3, counterexample: in run_config_sweep.py the archival step after a run
returns the session directory itself as destination and performs no directory
move (`dest_dir = session_dir`), so the newly created session directory is
not moved out of the sessions root. -/
theorem C3_counterexample :
    Sweep.archive_session "session_20240101_120000" =
      Except.ok ("session_20240101_120000", false) := rfl

/-- C3, amended: only the docker sweep driver moves the newly created session
directory, into `output_root/<session_ts>__<label>` (raising `RuntimeError`
when that destination already exists); run_config_sweep.py deliberately keeps
the session directory in place in the sessions root and merely records it in
the manifest. -/
theorem C3_session_archival (outputRoot label sessionName : String) :
    Sweep.archive_session sessionName =
      (Sweep.derive_timestamp sessionName).map (fun _ => (sessionName, false)) ∧
    Sweep.archive_session_docker outputRoot label sessionName false =
      (Sweep.derive_timestamp sessionName).map
        (fun ts => (outputRoot ++ "/" ++ ts ++ "__" ++ label, true)) ∧
    Sweep.archive_session_docker outputRoot label sessionName true =
      (Sweep.derive_timestamp sessionName).bind
        (fun ts => Except.error (PyExc.runtimeError
          ("Destination already exists: " ++
            (outputRoot ++ "/" ++ ts ++ "__" ++ label)))) := by
  cases h : Sweep.derive_timestamp sessionName <;>
    simp [Sweep.archive_session, Sweep.archive_session_docker, h,
      Except.map, Except.bind]

/-- C4, counterexample: with the seeds directory and the jar present but
ScoringMode.java missing, run_config_sweep.py raises `FileNotFoundError`
(from `parse_scoring_modes`), not `SystemExit`. -/
theorem C4_counterexample :
    Sweep.check_inputs "seeds" "target/C2Fuzz-1.0-shaded.jar"
        "src/main/java/fuzzer/runtime/ScoringMode.java" false true true false =
      Except.error (PyExc.fileNotFound ("Scoring mode source not found: " ++
        "src/main/java/fuzzer/runtime/ScoringMode.java")) ∧
    raisesSystemExit (Sweep.check_inputs "seeds" "target/C2Fuzz-1.0-shaded.jar"
        "src/main/java/fuzzer/runtime/ScoringMode.java" false true true false) =
      false := ⟨rfl, rfl⟩

/-- C4, amended: a missing seeds directory or jar makes the sweep driver raise
`SystemExit`, and a missing seed directory makes `collect_seeds` raise
`SystemExit`; but a missing ScoringMode.java source raises `FileNotFoundError`
instead of `SystemExit`. -/
theorem C4_missing_input_exceptions (seedsPath jarPath scoringPath seedDir : String)
    (b c : Bool) (entries : List String) :
    Sweep.check_inputs seedsPath jarPath scoringPath false false b c =
      Except.error (PyExc.systemExit ("Seeds directory not found: " ++ seedsPath)) ∧
    Sweep.check_inputs seedsPath jarPath scoringPath false true false c =
      Except.error (PyExc.systemExit ("Jar not found: " ++ jarPath)) ∧
    Sweep.check_inputs seedsPath jarPath scoringPath false true true false =
      Except.error (PyExc.fileNotFound
        ("Scoring mode source not found: " ++ scoringPath)) ∧
    Sweep.check_inputs seedsPath jarPath scoringPath false true true true =
      Except.ok () ∧
    FilterC2.collect_seeds seedDir false entries =
      Except.error (PyExc.systemExit ("Seed directory not found: " ++ seedDir)) :=
  ⟨rfl, rfl, rfl, rfl, rfl⟩

/-- C5: `strip_package` never raises — for every input it returns, leaving the
file unchanged when the read fails and suppressing a failed write (the file
again unchanged) — and the per-seed main loop treats a failed copy into the
temporary directory as `continue`: the state is unchanged apart from the
`total` counter and processing proceeds with the remaining sources. -/
theorem C5_strip_package_never_raises (content nm : String)
    (readOk writeOk comp : Bool) (st : FilterRuntime.LoopState)
    (rest : List FilterRuntime.Src) :
    (∃ final, FilterRuntime.strip_package content readOk writeOk =
      Except.ok final) ∧
    FilterRuntime.strip_package content false writeOk = Except.ok content ∧
    FilterRuntime.strip_package content true false = Except.ok content ∧
    FilterRuntime.strip_package content true true =
      Except.ok (FilterRuntime.strippedText content) ∧
    FilterRuntime.processOne st ⟨nm, false, comp⟩ =
      { st with total := st.total + 1 } ∧
    FilterRuntime.processSources st (⟨nm, false, comp⟩ :: rest) =
      FilterRuntime.processSources { st with total := st.total + 1 } rest := by
  refine ⟨?_, rfl, rfl, rfl, rfl, rfl⟩
  cases readOk <;> cases writeOk <;> exact ⟨_, rfl⟩

/-- C6: a compile timeout never escapes as an exception: `run_cmd` turns
`TimeoutExpired` into `(None, stdout, stderr, True)` (streams via `_to_text`),
and `process_seed` then returns a `SeedResult` with `compiled = False`,
`ran = False`, `has_opts = False`, `exit_code = None` and `timed_out = True`. -/
theorem C6_timeout_yields_seed_result (out err : Option String) (seed : String)
    (v : Bool) (ro : FilterC2.CmdOutcome) :
    FilterC2.runCmd (FilterC2.CmdOutcome.timeoutExpired out err) =
      (none, FilterC2.to_text out, FilterC2.to_text err, true) ∧
    FilterC2.process_seed v ⟨seed, FilterC2.CmdOutcome.timeoutExpired out err, ro⟩ =
      ⟨seed, false, false, false, none, true, "compile timed out"⟩ :=
  ⟨rfl, rfl⟩

/-- C7: `list_session_dirs` returns exactly the direct subdirectory entries of
an existing sessions root whose names start with `"session_"` and the empty
collection when the root does not exist; `derive_timestamp` returns the part
of the name after the first underscore and raises `ValueError` exactly for
names without an underscore. -/
theorem C7_session_naming (baseExists : Bool) (entries : List Sweep.DirEntry)
    (nm ts : String) :
    (nm ∈ Sweep.list_session_dirs baseExists entries ↔
      baseExists = true ∧ ∃ e ∈ entries, e.isDir = true ∧
        e.name.startsWith "session_" = true ∧ e.name = nm) ∧
    Sweep.list_session_dirs false entries = [] ∧
    (Sweep.derive_timestamp nm = Except.ok ts ↔
      ∃ pre, nm.data = pre ++ '_' :: ts.data ∧ '_' ∉ pre) ∧
    (Sweep.derive_timestamp nm =
        Except.error (PyExc.valueError
          ("Unexpected session directory name: " ++ nm)) ↔
      '_' ∉ nm.data) := by
  refine ⟨?_, by simp [Sweep.list_session_dirs], ?_, ?_⟩
  · cases baseExists with
    | false => simp [Sweep.list_session_dirs]
    | true =>
        simp only [Sweep.list_session_dirs, if_pos, List.mem_map,
          List.mem_filter, Bool.and_eq_true, true_and]
        constructor
        · rintro ⟨e, ⟨he, hd, hsw⟩, rfl⟩
          exact ⟨e, he, hd, hsw, rfl⟩
        · rintro ⟨e, he, hd, hsw, rfl⟩
          exact ⟨e, ⟨he, hd, hsw⟩, rfl⟩
  · constructor
    · intro h
      cases hafu : Sweep.afterFirstUnderscore nm.data with
      | none => simp [Sweep.derive_timestamp, hafu] at h
      | some rest =>
          simp only [Sweep.derive_timestamp, hafu, Except.ok.injEq] at h
          obtain ⟨pre, hp, hm⟩ := (afterFirstUnderscore_some_iff nm.data rest).mp hafu
          refine ⟨pre, ?_, hm⟩
          rw [hp, ← h]
    · rintro ⟨pre, hp, hm⟩
      have hafu : Sweep.afterFirstUnderscore nm.data = some ts.data :=
        (afterFirstUnderscore_some_iff _ _).mpr ⟨pre, hp, hm⟩
      simp [Sweep.derive_timestamp, hafu]
  · constructor
    · intro h
      cases hafu : Sweep.afterFirstUnderscore nm.data with
      | none => exact (afterFirstUnderscore_none_iff _).mp hafu
      | some rest => simp [Sweep.derive_timestamp, hafu] at h
    · intro h
      simp [Sweep.derive_timestamp, (afterFirstUnderscore_none_iff nm.data).mpr h]

/-- C8: the compile client's payload always carries `sourcePath` (the resolved
source path), carries `classOutput` and `options` exactly when those CLI
arguments were supplied, and `SystemExit` is raised for a missing or
non-regular source file and for an unreachable server (`URLError`); the exit
code is 1 iff the HTTP status is at least 400, else 0. -/
theorem C8_compile_client (src reason body : String) (options : List String)
    (status : Nat) (isFileB : Bool) (classOutput : Option String) :
    CompileClient.build_payload src false isFileB classOutput options =
      Except.error (PyExc.systemExit ("Source file not found: " ++ src)) ∧
    CompileClient.build_payload src true false classOutput options =
      Except.error (PyExc.systemExit ("Source path is not a file: " ++ src)) ∧
    (∃ pl, CompileClient.build_payload src true true classOutput options =
        Except.ok pl ∧
      pl.lookup "sourcePath" = some (CompileClient.JVal.str src) ∧
      pl.lookup "classOutput" = classOutput.map CompileClient.JVal.str ∧
      pl.lookup "options" =
        (if options.isEmpty then none
         else some (CompileClient.JVal.arr options))) ∧
    CompileClient.client_main src true true classOutput options
        (CompileClient.ServerResp.urlError reason) =
      Except.error (PyExc.systemExit ("Failed to reach server: " ++ reason)) ∧
    CompileClient.client_main src true true classOutput options
        (CompileClient.ServerResp.response status body) =
      Except.ok (if 400 ≤ status then 1 else 0) ∧
    CompileClient.client_main src true true classOutput options
        (CompileClient.ServerResp.httpError status body) =
      Except.ok (if 400 ≤ status then 1 else 0) ∧
    (CompileClient.client_main src true true classOutput options
        (CompileClient.ServerResp.response status body) = Except.ok 1 ↔
      400 ≤ status) := by
  refine ⟨rfl, rfl, ?_, rfl, rfl, rfl, ?_⟩
  · cases classOutput <;> rcases options with _ | ⟨o, os⟩ <;>
      exact ⟨_, rfl, rfl, rfl, rfl⟩
  · by_cases h : 400 ≤ status <;>
      simp [CompileClient.client_main, CompileClient.build_payload,
        CompileClient.send_request, h]

/-- C9: over a whole run of filter_runtime_compiler_seeds.py, the sources
copied to the output directory are exactly the first source of each basename
that copied and compiled successfully, so each basename is written at most
once and every later source with an already-written basename is skipped. -/
theorem C9_output_basenames_unique (srcs : List FilterRuntime.Src) :
    (FilterRuntime.processSources FilterRuntime.initState srcs).outputs =
      FilterRuntime.dedupByName [] (srcs.filter FilterRuntime.eligible) ∧
    ((FilterRuntime.processSources FilterRuntime.initState srcs).outputs.map
      FilterRuntime.Src.name).Nodup := by
  have h : (FilterRuntime.processSources FilterRuntime.initState srcs).outputs =
      FilterRuntime.dedupByName [] (srcs.filter FilterRuntime.eligible) := by
    simpa [FilterRuntime.initState] using
      processSources_outputs srcs FilterRuntime.initState
  exact ⟨h, h ▸ (dedupByName_nodup _ _).1⟩

/-- C10: `ensure_output_root` raises `RuntimeError` exactly when the output
directory exists and is non-empty; an existing empty directory is returned
unchanged without creating anything, and a missing one is created (with
parents) and returned. -/
theorem C10_ensure_output_root (path : String) :
    Sweep.ensure_output_root path true true =
      Except.error (PyExc.runtimeError
        ("Output directory " ++ path ++ " already exists and is not empty.")) ∧
    Sweep.ensure_output_root path true false = Except.ok (path, false) ∧
    Sweep.ensure_output_root path false true = Except.ok (path, true) ∧
    Sweep.ensure_output_root path false false = Except.ok (path, true) :=
  ⟨rfl, rfl, rfl, rfl⟩

end C2Fuzz
